import Mathlib

/-!
Verification of the mgk-solana dark pool: the encrypted order matcher
(`encrypted-perp/encrypted-ixs/src/darkpool.rs`) and the settlement bridge
(`programs/perpetuals/src/instructions/settle_dark_pool_trade.rs`).

Shallow embedding conventions:
* `u64`/`u8`/`u128` values are `Nat`; `i64` values are `Int`.  Arithmetic is
  wrapped (`% 2^64`, `% 2^128`, two's-complement wrap for `i64`) exactly at
  the operations where the Rust source performs fixed-width arithmetic,
  following Rust's release-profile wrapping semantics.  A `u128` division by
  zero, which panics in Rust unconditionally, is modelled by `Option`/`panic`
  outcomes.
* 32-byte account keys (`Pubkey`, pool/custody identities) are opaque: they
  are modelled as `Nat` with equality, which is all the source uses of them.
* The 64-byte darkpool signature is a `List Nat`; the source only compares it
  against the all-zero array.
* `pool.get_usd_amount(amount, collateral_oracle_price, collateral_custody)`
  (collateral-to-USD conversion through the snapshotted oracle price; its
  code lives outside the settlement module) is an opaque parameter
  `usd : Nat → Nat`, per the spec's "collateral_usd = convert(collateral_amount)
  via the current collateral oracle price".  No claim below depends on its
  value.
* The SPL token transfer at the end of `settle_trader_position` is an external
  CPI that does not touch any `Position` field, so it does not appear in the
  state returned here; an `err`/`panic` outcome of an instruction means the
  Solana transaction fails and every account mutation is rolled back.
-/

/-- Wrap a natural number to u64 range, Rust release-mode `u64` overflow. -/
def wrap64 (n : Nat) : Nat := n % 18446744073709551616

/-- Wrap a natural number to u128 range, Rust release-mode `u128` overflow. -/
def wrap128 (n : Nat) : Nat := n % 340282366920938463463374607431768211456

/-- Two's-complement wrap of an integer into i64 range `[-2^63, 2^63)`,
Rust release-mode `i64` overflow. -/
def iwrap64 (x : Int) : Int :=
  (x + 9223372036854775808) % 18446744073709551616 - 9223372036854775808

/-! ## The encrypted matcher (`encrypted-ixs/src/darkpool.rs`) -/

/-- `DarkOrder` of the encrypted circuit: one trader's desired position.
`side`: 0 = long, 1 = short (a `u8` in the source, hence an unconstrained
`Nat` here). -/
structure DarkOrder where
  owner : Nat
  side : Nat
  size_usd : Nat
  collateral_amount : Nat
  max_price : Nat
  leverage : Nat
  pool : Nat
  custody : Nat
  collateral_custody : Nat
  timestamp : Nat
  nonce : Nat
deriving DecidableEq

/-- `OrderMatch`: two matched orders with cleared size and price. -/
structure OrderMatch where
  order_a : DarkOrder
  order_b : DarkOrder
  matched_size : Nat
  execution_price : Nat
  timestamp : Nat
deriving DecidableEq

/-- `MatchResult`: every match of one batch plus aggregate statistics.
The source field `matches` is a Lean keyword, hence the primed name. -/
structure MatchResult where
  matches' : List OrderMatch
  total_volume : Nat
  average_price : Nat
  timestamp : Nat
deriving DecidableEq

/-- The validation of `submit_dark_order`: the boolean computed inside the
encrypted environment (lines 71–76 of the circuit). -/
def submit_dark_order (order : DarkOrder) : Bool :=
  decide (0 < order.size_usd)
    && decide (0 < order.collateral_amount)
    && decide (0 < order.leverage)
    && decide (order.leverage ≤ 100)
    && decide (0 < order.max_price)
    && (decide (order.side = 0) || decide (order.side = 1))

/-- `can_match` (circuit lines 135–152): opposite sides, same pool and
custody, and price-compatible limits. -/
def can_match (order_a order_b : DarkOrder) : Bool :=
  if order_a.side = order_b.side then false
  else if order_a.pool ≠ order_b.pool ∨ order_a.custody ≠ order_b.custody then false
  else
    match order_a.side, order_b.side with
    | 0, 1 => decide (order_b.max_price ≤ order_a.max_price)
    | 1, 0 => decide (order_a.max_price ≤ order_b.max_price)
    | _, _ => false

/-- `calculate_execution_price` (circuit lines 155–158): midpoint of the two
limit prices, with the `u64` sum wrapping before the halving. -/
def calculate_execution_price (order_a order_b : DarkOrder) : Nat :=
  wrap64 (order_a.max_price + order_b.max_price) / 2

/-- The `OrderMatch` the matcher pushes for a matching pair (circuit
lines 100–109). -/
def mkOrderMatch (order_a order_b : DarkOrder) (t : Nat) : OrderMatch :=
  { order_a := order_a
    order_b := order_b
    matched_size := min order_a.size_usd order_b.size_usd
    execution_price := calculate_execution_price order_a order_b
    timestamp := t }

/-- The matches emitted by the double loop `for i, for j in (i+1)..`, in the
order the source pushes them. -/
def candidateMatches : List DarkOrder → Nat → List OrderMatch
  | [], _ => []
  | a :: rest, t =>
      (rest.filter (fun b => can_match a b)).map (fun b => mkOrderMatch a b t)
        ++ candidateMatches rest t

/-- `match_dark_orders` (circuit lines 82–132): all-pairs matching, then the
aggregate volume, value and average price.  The accumulators fold over the
matches in loop order, with `u64` wrapping on each addition and on the
`matched_size * execution_price` product, as in the source. -/
def match_dark_orders (orders : List DarkOrder) : MatchResult :=
  let current_time := 1600000000
  let ms := candidateMatches orders current_time
  let total_volume := ms.foldl (fun acc m => wrap64 (acc + m.matched_size)) 0
  let total_value :=
    ms.foldl (fun acc m => wrap64 (acc + wrap64 (m.matched_size * m.execution_price))) 0
  { matches' := ms
    total_volume := total_volume
    average_price := if 0 < total_volume then total_value / total_volume else 0
    timestamp := current_time }

/-! ## The settlement bridge (`settle_dark_pool_trade.rs`) -/

/-- `Side` of the perpetuals position state (the spec's `enum {Long, Short}`). -/
inductive Side where
  | long
  | short
deriving DecidableEq

/-- `DarkPoolTradeData` (lines 23–36): the plaintext, authenticated record
crossing from matching output into settlement. -/
structure DarkPoolTradeData where
  trader_a : Nat
  trader_b : Nat
  side_a : Side
  side_b : Side
  size_usd : Nat
  price : Nat
  pool : Nat
  custody : Nat
  collateral_custody : Nat
  timestamp : Int
  darkpool_signature : List Nat
deriving DecidableEq

/-- The all-zero 64-byte signature `[0u8; 64]` the guard rejects. -/
def zeroSignature : List Nat := List.replicate 64 0

/-- The settlement errors raised by `settle_dark_pool_trade.rs`. -/
inductive PerpetualsError where
  | InvalidSignature
  | TradeDataTooOld
  | InvalidPositionSize
  | InvalidPrice
  | InvalidTradeSides
  | PriceSlippageTooHigh
deriving DecidableEq

/-- `Position` state fields the settlement bridge reads and writes. -/
structure Position where
  owner : Nat
  pool : Nat
  custody : Nat
  collateral_custody : Nat
  side : Side
  price : Nat
  size_usd : Nat
  collateral_amount : Nat
  collateral_usd : Nat
  open_time : Int
  update_time : Int
deriving DecidableEq

/-- `verify_darkpool_signature` (lines 333–354): non-zero signature, then the
5-minute freshness window `current_time - trade_data.timestamp < 300`, the
`i64` subtraction wrapping as in the source. -/
def verify_darkpool_signature (trade_data : DarkPoolTradeData)
    (current_time : Int) : Except PerpetualsError Unit :=
  if trade_data.darkpool_signature = zeroSignature then
    .error .InvalidSignature
  else if iwrap64 (current_time - trade_data.timestamp) < 300 then
    .ok ()
  else
    .error .TradeDataTooOld

/-- `settle_trader_position` (lines 258–331): initialize an empty position or
fold the trade into an existing one with the 128-bit volume-weighted price.
`usd` stands for `pool.get_usd_amount` at the snapshotted collateral oracle
price; `none` is the `u128` division-by-zero panic when the wrapped new size
is zero.  The final SPL transfer does not touch the position. -/
def settle_trader_position (trade_data : DarkPoolTradeData) (position : Position)
    (collateral_amount : Nat) (side : Side)
    (pool_key custody_key collateral_custody_key : Nat)
    (usd : Nat → Nat) (current_time : Int) : Option Position :=
  if position.size_usd = 0 then
    some
      { owner := trade_data.trader_a
        pool := pool_key
        custody := custody_key
        collateral_custody := collateral_custody_key
        side := side
        price := trade_data.price
        size_usd := trade_data.size_usd
        collateral_amount := collateral_amount
        collateral_usd := usd collateral_amount
        open_time := current_time
        update_time := current_time }
  else
    let new_total_size := wrap64 (position.size_usd + trade_data.size_usd)
    if new_total_size = 0 then none
    else
      let weighted_price :=
        wrap128 (position.price * position.size_usd
            + trade_data.price * trade_data.size_usd) / new_total_size
      some
        { position with
            size_usd := new_total_size
            price := wrap64 weighted_price
            collateral_amount := wrap64 (position.collateral_amount + collateral_amount)
            collateral_usd := wrap64 (position.collateral_usd + usd collateral_amount)
            update_time := current_time }

/-- Oracle-relative price deviation `price_diff` (lines 196–200): the branch
avoids `u64` underflow. -/
def price_diff (oracle_price trade_price : Nat) : Nat :=
  if trade_price < oracle_price then oracle_price - trade_price
  else trade_price - oracle_price

/-- Outcome of the `settle_dark_pool_trade` instruction: the two updated
positions on success, the program error on rejection, or a Rust panic
(division by zero).  `err` and `panic` abort the transaction: no account
mutation persists. -/
inductive SettleResult where
  | ok (position_a position_b : Position)
  | err (e : PerpetualsError)
  | panic
deriving DecidableEq

/-- `settle_dark_pool_trade` (lines 158–256): signature/freshness guard, the
size, price and side checks, the slippage bound against the custody oracle
price, then the two independent position legs.  `custody_oracle_price` is the
snapshotted `custody_oracle_price.price`; `usd` is the collateral
USD-conversion through the snapshotted collateral oracle price. -/
def settle_dark_pool_trade (trade_data : DarkPoolTradeData)
    (position_a position_b : Position)
    (collateral_amount_a collateral_amount_b : Nat)
    (max_price_slippage : Nat) (custody_oracle_price : Nat)
    (usd : Nat → Nat) (pool_key custody_key collateral_custody_key : Nat)
    (current_time : Int) : SettleResult :=
  match verify_darkpool_signature trade_data current_time with
  | .error e => .err e
  | .ok () =>
    if trade_data.size_usd = 0 then .err .InvalidPositionSize
    else if trade_data.price = 0 then .err .InvalidPrice
    else if trade_data.side_a = trade_data.side_b then .err .InvalidTradeSides
    else if custody_oracle_price = 0 then .panic
    else
      let slippage_bps :=
        wrap64 (price_diff custody_oracle_price trade_data.price * 10000)
          / custody_oracle_price
      if max_price_slippage < slippage_bps then .err .PriceSlippageTooHigh
      else
        match settle_trader_position trade_data position_a collateral_amount_a
            trade_data.side_a pool_key custody_key collateral_custody_key
            usd current_time with
        | none => .panic
        | some position_a2 =>
          match settle_trader_position trade_data position_b collateral_amount_b
              trade_data.side_b pool_key custody_key collateral_custody_key
              usd current_time with
          | none => .panic
          | some position_b2 => .ok position_a2 position_b2

/-- One event of `batch_settle_dark_pool_trades`' per-trade loop. -/
structure DarkPoolTradeQueued where
  trader_a : Nat
  trader_b : Nat
  size_usd : Nat
  price : Nat
  timestamp : Int
deriving DecidableEq

/-- `batch_settle_dark_pool_trades` (lines 381–404): the loop verifies each
trade's signature with `?` and emits a `DarkPoolTradeQueued` event.  An
`Except.error` outcome means the whole instruction fails: the Solana runtime
then rolls back the transaction, so no event of the batch persists. -/
def batch_settle_dark_pool_trades :
    List DarkPoolTradeData → Int → Except PerpetualsError (List DarkPoolTradeQueued)
  | [], _ => .ok []
  | trade :: rest, current_time =>
    match verify_darkpool_signature trade current_time with
    | .error e => .error e
    | .ok () =>
      match batch_settle_dark_pool_trades rest current_time with
      | .error e => .error e
      | .ok events =>
        .ok ({ trader_a := trade.trader_a
               trader_b := trade.trader_b
               size_usd := trade.size_usd
               price := trade.price
               timestamp := trade.timestamp } :: events)

deriving instance DecidableEq for Except

/-! ## Concrete inputs used by the claims below -/

/-- A non-zero 64-byte signature. -/
def oneSignature : List Nat := 1 :: List.replicate 63 0

/-- Long order of the spec's concrete matching scenario: limit 110, size 50. -/
def orderA7 : DarkOrder :=
  { owner := 1, side := 0, size_usd := 50, collateral_amount := 500, max_price := 110,
    leverage := 10, pool := 5, custody := 6, collateral_custody := 7,
    timestamp := 100, nonce := 1 }

/-- Short order of the spec's concrete matching scenario: limit 100, size 80. -/
def orderB7 : DarkOrder :=
  { owner := 2, side := 1, size_usd := 80, collateral_amount := 800, max_price := 100,
    leverage := 10, pool := 5, custody := 6, collateral_custody := 7,
    timestamp := 101, nonce := 2 }

/-- A matching long/short pair whose limit prices are both `2^63`, so that the
`u64` sum in `calculate_execution_price` wraps to `0`. -/
def orderA6 : DarkOrder := { orderA7 with max_price := 9223372036854775808, size_usd := 10 }

/-- Counterpart short order with limit price `2^63`. -/
def orderB6 : DarkOrder := { orderB7 with max_price := 9223372036854775808, size_usd := 10 }

/-- A position record that is logically empty (`size_usd == 0`). -/
def emptyPosition : Position :=
  { owner := 0, pool := 0, custody := 0, collateral_custody := 0, side := Side.long,
    price := 0, size_usd := 0, collateral_amount := 0, collateral_usd := 0,
    open_time := 0, update_time := 0 }

/-- A well-formed trade at price 100, size 100. -/
def tradeP100 : DarkPoolTradeData :=
  { trader_a := 11, trader_b := 12, side_a := Side.long, side_b := Side.short,
    size_usd := 100, price := 100, pool := 5, custody := 6, collateral_custody := 7,
    timestamp := 0, darkpool_signature := oneSignature }

/-- The same trade at price 200. -/
def tradeP200 : DarkPoolTradeData := { tradeP100 with price := 200 }

/-! ## Claims about the matcher -/

/-- C4: the encrypted validator accepts an order exactly when `size_usd > 0`,
`collateral_amount > 0`, `1 ≤ leverage ≤ 100`, `limit_price > 0` and the side
is one of the two defined values; so it returns false whenever `size_usd == 0`
or `collateral_amount == 0` or leverage lies outside `[1, 100]` or
`limit_price == 0`. -/
theorem C4_validator_iff (order : DarkOrder) :
    submit_dark_order order = true ↔
      (0 < order.size_usd ∧ 0 < order.collateral_amount ∧ 1 ≤ order.leverage ∧
        order.leverage ≤ 100 ∧ 0 < order.max_price ∧
        (order.side = 0 ∨ order.side = 1)) := by
  simp [submit_dark_order, and_assoc, Nat.lt_iff_add_one_le]

/-- C5: `can_match` is true exactly for opposite-side pairs on the same pool
and custody whose long limit price is at least the short limit price; in
particular it is false for same-side pairs and for opposite-side pairs with
mismatched pool or custody. -/
theorem C5_can_match_iff (order_a order_b : DarkOrder) :
    can_match order_a order_b = true ↔
      (order_a.pool = order_b.pool ∧ order_a.custody = order_b.custody ∧
        ((order_a.side = 0 ∧ order_b.side = 1 ∧
            order_b.max_price ≤ order_a.max_price) ∨
          (order_a.side = 1 ∧ order_b.side = 0 ∧
            order_a.max_price ≤ order_b.max_price))) := by
  obtain ⟨w1, s1, z1, c1, m1, l1, p1, u1, k1, t1, n1⟩ := order_a
  obtain ⟨w2, s2, z2, c2, m2, l2, p2, u2, k2, t2, n2⟩ := order_b
  unfold can_match
  rcases s1 with _ | _ | s1 <;> rcases s2 with _ | _ | s2 <;>
    split_ifs <;> simp_all <;> tauto

/-- C7: the spec's concrete scenario — long limit 110 size 50 against short
limit 100 size 80 on the same pool and custody yields exactly one match with
`matched_size = 50` and `execution_price = 105`, with `total_volume = 50` and
`average_price = 105`. -/
theorem C7_concrete_scenario :
    (match_dark_orders [orderA7, orderB7]).matches' =
        [{ order_a := orderA7, order_b := orderB7, matched_size := 50,
           execution_price := 105, timestamp := 1600000000 }] ∧
      (match_dark_orders [orderA7, orderB7]).total_volume = 50 ∧
      (match_dark_orders [orderA7, orderB7]).average_price = 105 := by
  decide

/-- Every emitted match is built by `mkOrderMatch` from its own two orders at
the fixed circuit timestamp. -/
theorem mem_candidateMatches {m : OrderMatch} {orders : List DarkOrder} {t : Nat}
    (h : m ∈ candidateMatches orders t) :
    m = mkOrderMatch m.order_a m.order_b t := by
  induction orders with
  | nil => simp [candidateMatches] at h
  | cons a rest ih =>
    simp only [candidateMatches, List.mem_append, List.mem_map,
      List.mem_filter] at h
    rcases h with ⟨b, _, hb⟩ | h
    · subst hb; rfl
    · exact ih h

/-- C6 (amended): for every match the Matcher emits whose two limit prices sum
below `2^64`, the execution price is exactly the floored midpoint
`(limit_price_a + limit_price_b) / 2` and the matched size is
`min(size_usd_a, size_usd_b)`.  Without the bound the `u64` sum wraps, see the
counterexample. -/
theorem C6_execution_price_midpoint (orders : List DarkOrder) (m : OrderMatch)
    (hm : m ∈ (match_dark_orders orders).matches')
    (hsum : m.order_a.max_price + m.order_b.max_price < 18446744073709551616) :
    m.execution_price = (m.order_a.max_price + m.order_b.max_price) / 2 ∧
      m.matched_size = min m.order_a.size_usd m.order_b.size_usd := by
  have hshape : m = mkOrderMatch m.order_a m.order_b 1600000000 :=
    mem_candidateMatches hm
  have h1 := congrArg OrderMatch.execution_price hshape
  have h2 := congrArg OrderMatch.matched_size hshape
  simp only [mkOrderMatch] at h1 h2
  refine ⟨?_, h2⟩
  rw [h1]
  unfold calculate_execution_price wrap64
  rw [Nat.mod_eq_of_lt hsum]

/-- C6 witness: the midpoint theorem applied to the concrete scenario pair. -/
theorem C6_execution_price_midpoint_witness :
    (mkOrderMatch orderA7 orderB7 1600000000).execution_price =
        (orderA7.max_price + orderB7.max_price) / 2 ∧
      (mkOrderMatch orderA7 orderB7 1600000000).matched_size =
        min orderA7.size_usd orderB7.size_usd :=
  C6_execution_price_midpoint [orderA7, orderB7]
    (mkOrderMatch orderA7 orderB7 1600000000) (by decide) (by decide)

/-- C6 counterexample: two orders with limit prices `2^63` each do match, and
the emitted execution price is `0`, not the exact floored midpoint `2^63`:
the `u64` sum `limit_price_a + limit_price_b` wraps before the halving. -/
theorem C6_counterexample :
    can_match orderA6 orderB6 = true ∧
      (match_dark_orders [orderA6, orderB6]).matches'.map
          OrderMatch.execution_price = [0] ∧
      (orderA6.max_price + orderB6.max_price) / 2 = 9223372036854775808 ∧
      (0 : Nat) ≠ 9223372036854775808 := by
  decide

/-! ## Claims about the settlement legs -/

/-- C2: settling a leg into a position with `size_usd > 0` yields
`size_usd' = size_usd + trade.size_usd` and
`price' = ⌊(price * size_usd + trade.price * trade.size_usd) / size_usd'⌋`,
the intermediates taken in 128-bit arithmetic (the `u64` bounds on the stored
fields and on the new size make every wrap a no-op, and the weighted quotient
is bounded by the larger price so the `as u64` cast is exact); and the
concrete scenario: trades (price 100, size 100) then (price 200, size 100)
into an initially empty position end at `size_usd = 200`, `price = 150`. -/
theorem C2_weighted_average_update :
    (∀ (trade_data : DarkPoolTradeData) (position : Position)
        (collateral_amount : Nat) (side : Side)
        (pool_key custody_key collateral_custody_key : Nat)
        (usd : Nat → Nat) (current_time : Int),
        0 < position.size_usd →
        position.size_usd + trade_data.size_usd < 18446744073709551616 →
        position.price < 18446744073709551616 →
        trade_data.price < 18446744073709551616 →
        (settle_trader_position trade_data position collateral_amount side
            pool_key custody_key collateral_custody_key usd current_time).map
            (fun p => (p.size_usd, p.price)) =
          some (position.size_usd + trade_data.size_usd,
            (position.price * position.size_usd
                + trade_data.price * trade_data.size_usd) /
              (position.size_usd + trade_data.size_usd))) ∧
      ((settle_trader_position tradeP100 emptyPosition 0 Side.long 5 6 7
            (fun n => n) 0).bind
          (fun p => settle_trader_position tradeP200 p 0 Side.long 5 6 7
            (fun n => n) 0)).map
        (fun p => (p.size_usd, p.price)) = some (200, 150) := by
  constructor
  · intro trade_data position collateral_amount side pk ck cck usd now h0 hsum hp ht
    have hne : position.size_usd ≠ 0 := Nat.pos_iff_ne_zero.mp h0
    have hp' : position.price ≤ 18446744073709551615 := by omega
    have ht' : trade_data.price ≤ 18446744073709551615 := by omega
    have hst : position.size_usd + trade_data.size_usd ≤ 18446744073709551615 := by
      omega
    have hA : position.price * position.size_usd
        + trade_data.price * trade_data.size_usd
        ≤ 18446744073709551615 * (position.size_usd + trade_data.size_usd) := by
      calc position.price * position.size_usd
            + trade_data.price * trade_data.size_usd
          ≤ 18446744073709551615 * position.size_usd
            + 18446744073709551615 * trade_data.size_usd :=
            Nat.add_le_add (Nat.mul_le_mul hp' (Nat.le_refl _))
              (Nat.mul_le_mul ht' (Nat.le_refl _))
        _ = 18446744073709551615 * (position.size_usd + trade_data.size_usd) := by
            ring
    have hA128 : position.price * position.size_usd
        + trade_data.price * trade_data.size_usd
        < 340282366920938463463374607431768211456 := by
      calc position.price * position.size_usd
            + trade_data.price * trade_data.size_usd
          ≤ 18446744073709551615 * (position.size_usd + trade_data.size_usd) := hA
        _ ≤ 18446744073709551615 * 18446744073709551615 :=
            Nat.mul_le_mul (Nat.le_refl _) hst
        _ < 340282366920938463463374607431768211456 := by norm_num
    have hq : (position.price * position.size_usd
        + trade_data.price * trade_data.size_usd) /
          (position.size_usd + trade_data.size_usd)
        < 18446744073709551616 := by
      rw [Nat.div_lt_iff_lt_mul (by omega :
        0 < position.size_usd + trade_data.size_usd)]
      calc position.price * position.size_usd
            + trade_data.price * trade_data.size_usd
          ≤ 18446744073709551615 * (position.size_usd + trade_data.size_usd) := hA
        _ < 18446744073709551616 * (position.size_usd + trade_data.size_usd) :=
            Nat.mul_lt_mul_of_lt_of_le (by norm_num) (Nat.le_refl _) (by omega)
    simp only [settle_trader_position, hne, if_false, wrap64, wrap128]
    rw [Nat.mod_eq_of_lt hsum, if_neg (by omega :
      ¬ position.size_usd + trade_data.size_usd = 0),
      Nat.mod_eq_of_lt hA128, Nat.mod_eq_of_lt hq]
    rfl
  · decide

/-- C3: when a settlement leg initializes an empty position
(`size_usd == 0`), the owner written is always `trade_data.trader_a` — for
any leg, in particular for trader B's leg of a full admitted settlement: the
new `position_b` records `trader_a`, not `trader_b`, as its owner. -/
theorem C3_new_position_owner_is_trader_a :
    (∀ (trade_data : DarkPoolTradeData) (position : Position)
        (collateral_amount : Nat) (side : Side)
        (pool_key custody_key collateral_custody_key : Nat)
        (usd : Nat → Nat) (current_time : Int),
        position.size_usd = 0 →
        (settle_trader_position trade_data position collateral_amount side
            pool_key custody_key collateral_custody_key usd
            current_time).map Position.owner = some trade_data.trader_a) ∧
      (∀ (trade_data : DarkPoolTradeData) (position_a position_b : Position)
          (collateral_amount_a collateral_amount_b : Nat)
          (max_price_slippage custody_oracle_price : Nat) (usd : Nat → Nat)
          (pool_key custody_key collateral_custody_key : Nat)
          (current_time : Int) (pa2 pb2 : Position),
          settle_dark_pool_trade trade_data position_a position_b
              collateral_amount_a collateral_amount_b max_price_slippage
              custody_oracle_price usd pool_key custody_key
              collateral_custody_key current_time = SettleResult.ok pa2 pb2 →
          position_b.size_usd = 0 → pb2.owner = trade_data.trader_a) := by
  have key : ∀ (trade_data : DarkPoolTradeData) (position : Position)
      (collateral_amount : Nat) (side : Side) (pk ck cck : Nat)
      (usd : Nat → Nat) (now : Int),
      position.size_usd = 0 →
      (settle_trader_position trade_data position collateral_amount side
          pk ck cck usd now).map Position.owner = some trade_data.trader_a := by
    intro trade_data position collateral_amount side pk ck cck usd now h0
    simp [settle_trader_position, h0]
  refine ⟨key, ?_⟩
  intro trade_data pa pb ca cb maxslip oracle usd pk ck cck now pa2 pb2 h hb0
  simp only [settle_dark_pool_trade] at h
  split at h
  · exact absurd h (by simp)
  · split_ifs at h
    split at h
    · exact absurd h (by simp)
    · split at h
      · exact absurd h (by simp)
      · rename_i pa3 _ pb3 heq
        have hkey := key trade_data pb cb trade_data.side_b pk ck cck usd now hb0
        rw [heq] at hkey
        simp only [Option.map_some'] at hkey
        simp only [SettleResult.ok.injEq] at h
        rw [← h.2]
        exact Option.some.inj hkey

/-! ## Claims about the replay/slippage guard and batch settlement -/

/-- A trade whose `i64` timestamp is the minimum value: astronomically stale. -/
def trade8 : DarkPoolTradeData := { tradeP100 with timestamp := -9223372036854775808 }

/-- A valid future-dated trade (`timestamp = 1`). -/
def trade10 : DarkPoolTradeData := { tradeP100 with timestamp := 1 }

/-- A trade the guard rejects: all-zero darkpool signature. -/
def tradeBad : DarkPoolTradeData :=
  { tradeP100 with darkpool_signature := zeroSignature, timestamp := 1600000000 }

/-- A trade the guard admits at settlement time 1600000000. -/
def tradeGood : DarkPoolTradeData := { tradeP100 with timestamp := 1600000000 }

/-- The `i64` wrap is the identity on representable values. -/
theorem iwrap64_eq_self {x : Int} (h1 : -9223372036854775808 ≤ x)
    (h2 : x < 9223372036854775808) : iwrap64 x = x := by
  unfold iwrap64
  omega

/-- C8 (amended): a trade with a non-zero signature whose age
`current_time - timestamp` is at least 300 seconds is rejected with
`TradeDataTooOld`, provided the age is representable in `i64`
(`< 2^63`).  Outside that range the wrapped `i64` subtraction lets a
maximally stale trade pass the replay window, see the counterexample. -/
theorem C8_stale_trade_rejected (trade_data : DarkPoolTradeData)
    (current_time : Int)
    (hsig : trade_data.darkpool_signature ≠ zeroSignature)
    (hstale : 300 ≤ current_time - trade_data.timestamp)
    (hrep : current_time - trade_data.timestamp < 9223372036854775808) :
    verify_darkpool_signature trade_data current_time =
      Except.error PerpetualsError.TradeDataTooOld := by
  unfold verify_darkpool_signature
  rw [if_neg hsig, iwrap64_eq_self (by omega) hrep, if_neg (by omega)]

/-- C8 witness: the trade at price 100 signed with a non-zero signature,
1000 seconds old, is rejected as too old. -/
theorem C8_stale_trade_rejected_witness :
    verify_darkpool_signature tradeP100 1000 =
      Except.error PerpetualsError.TradeDataTooOld :=
  C8_stale_trade_rejected tradeP100 1000 (by decide) (by decide) (by decide)

/-- C8 counterexample: the trade with `timestamp = i64::MIN` is
`1600000000 + 2^63 ≥ 300` seconds old, every other field is valid, yet the
guard accepts it: `current_time - trade_data.timestamp` wraps to a negative
`i64`, bypassing the 5-minute replay window. -/
theorem C8_counterexample :
    (300 : Int) ≤ 1600000000 - trade8.timestamp ∧
      verify_darkpool_signature trade8 1600000000 = Except.ok () := by
  decide

/-- C10 (amended): a trade whose timestamp is not in the past passes the
freshness check whenever `current_time - timestamp` does not underflow `i64`
(in particular whenever the clock is non-negative); at an extreme negative
clock the wrapped subtraction turns a future timestamp into a rejection, see
the counterexample. -/
theorem C10_future_timestamp_passes (trade_data : DarkPoolTradeData)
    (current_time : Int)
    (hfut : current_time ≤ trade_data.timestamp)
    (hrep : -9223372036854775808 ≤ current_time - trade_data.timestamp) :
    verify_darkpool_signature trade_data current_time ≠
      Except.error PerpetualsError.TradeDataTooOld := by
  unfold verify_darkpool_signature
  split_ifs with h1 h2
  · simp
  · simp
  · exfalso
    apply h2
    rw [iwrap64_eq_self hrep (by omega)]
    omega

/-- C10 witness: the future-dated trade (`timestamp = 1`) is not rejected as
too old at clock 0. -/
theorem C10_future_timestamp_passes_witness :
    verify_darkpool_signature trade10 0 ≠
      Except.error PerpetualsError.TradeDataTooOld :=
  C10_future_timestamp_passes trade10 0 (by decide) (by decide)

/-- C10 counterexample: at clock `i64::MIN` the future-dated trade
(`timestamp = 1 ≥ current_time`) is rejected with `TradeDataTooOld`: the
subtraction underflows `i64` and wraps to `2^63 - 1 ≥ 300`. -/
theorem C10_counterexample :
    (-9223372036854775808 : Int) ≤ trade10.timestamp ∧
      verify_darkpool_signature trade10 (-9223372036854775808) =
        Except.error PerpetualsError.TradeDataTooOld := by
  decide

/-- The signature/freshness guard only ever raises `InvalidSignature` or
`TradeDataTooOld`. -/
theorem verify_error_cases {trade_data : DarkPoolTradeData} {current_time : Int}
    {e : PerpetualsError}
    (h : verify_darkpool_signature trade_data current_time = Except.error e) :
    e = PerpetualsError.InvalidSignature ∨ e = PerpetualsError.TradeDataTooOld := by
  unfold verify_darkpool_signature at h
  split_ifs at h <;> simp_all

/-- A trade priced `2^60` above the oracle price of 100: the deviation is
astronomical, yet `price_diff * 10000` wraps to `0` in `u64`. -/
def trade9 : DarkPoolTradeData :=
  { tradeP100 with
      price := 1152921504606847076
      timestamp := 1600000000 }

/-- A trade priced 105 against an oracle price of 100: 500 bps deviation. -/
def trade9w : DarkPoolTradeData := { tradeP100 with price := 105 }

/-- The position trader A's leg of `trade9` creates. -/
def position9a : Position :=
  { owner := 11, pool := 5, custody := 6, collateral_custody := 7, side := Side.long,
    price := 1152921504606847076, size_usd := 100, collateral_amount := 0,
    collateral_usd := 0, open_time := 1600000000, update_time := 1600000000 }

/-- The position trader B's leg of `trade9` creates. -/
def position9b : Position := { position9a with side := Side.short }

/-- C9 (amended): as long as `price_diff * 10000` stays below `2^64`, the
settlement rejects with `PriceSlippageTooHigh` exactly the trades whose
deviation `⌊|oracle − price| * 10000 / oracle⌋` exceeds `max_slippage_bps`
(when the signature, freshness, size, price and side checks pass), and the
rejection aborts before any position state is produced; a deviation of at
most `max_slippage_bps` is never rejected for slippage.  Without the bound
the `u64` product wraps, see the counterexample. -/
theorem C9_slippage_guard (trade_data : DarkPoolTradeData)
    (position_a position_b : Position)
    (collateral_amount_a collateral_amount_b : Nat)
    (max_price_slippage custody_oracle_price : Nat) (usd : Nat → Nat)
    (pool_key custody_key collateral_custody_key : Nat) (current_time : Int)
    (horacle : 0 < custody_oracle_price)
    (hnof : price_diff custody_oracle_price trade_data.price * 10000
      < 18446744073709551616) :
    (max_price_slippage <
        price_diff custody_oracle_price trade_data.price * 10000
          / custody_oracle_price →
      verify_darkpool_signature trade_data current_time = Except.ok () →
      trade_data.size_usd ≠ 0 → trade_data.price ≠ 0 →
      trade_data.side_a ≠ trade_data.side_b →
      settle_dark_pool_trade trade_data position_a position_b
          collateral_amount_a collateral_amount_b max_price_slippage
          custody_oracle_price usd pool_key custody_key collateral_custody_key
          current_time = SettleResult.err PerpetualsError.PriceSlippageTooHigh) ∧
      (price_diff custody_oracle_price trade_data.price * 10000
            / custody_oracle_price ≤ max_price_slippage →
        settle_dark_pool_trade trade_data position_a position_b
            collateral_amount_a collateral_amount_b max_price_slippage
            custody_oracle_price usd pool_key custody_key
            collateral_custody_key current_time
          ≠ SettleResult.err PerpetualsError.PriceSlippageTooHigh) := by
  have hmod : price_diff custody_oracle_price trade_data.price * 10000
      % 18446744073709551616
      = price_diff custody_oracle_price trade_data.price * 10000 :=
    Nat.mod_eq_of_lt hnof
  have ho' : custody_oracle_price ≠ 0 := by omega
  constructor
  · intro hgt hv hs hp hsides
    simp only [settle_dark_pool_trade, hv, wrap64, hmod, hs, hp, hsides, ho', hgt,
      if_true, if_false, ite_true, ite_false, not_false_iff]
  · intro hle hcontra
    simp only [settle_dark_pool_trade, wrap64] at hcontra
    split at hcontra
    · rename_i e hv
      simp only [SettleResult.err.injEq] at hcontra
      subst hcontra
      rcases verify_error_cases hv with h | h <;> simp at h
    · have hle' : price_diff custody_oracle_price trade_data.price * 10000
          % 18446744073709551616 / custody_oracle_price ≤ max_price_slippage := by
        rw [hmod]; exact hle
      rcases hA : settle_trader_position trade_data position_a collateral_amount_a
          trade_data.side_a pool_key custody_key collateral_custody_key usd
          current_time with _ | pa2 <;>
        rcases hB : settle_trader_position trade_data position_b
            collateral_amount_b trade_data.side_b pool_key custody_key
            collateral_custody_key usd current_time with _ | pb2 <;>
        simp only [hA, hB] at hcontra <;>
        split_ifs at hcontra <;>
        (try simp at hcontra) <;>
        omega

/-- C9 witness: a 500 bps deviation (price 105, oracle 100) against a 400 bps
bound is rejected with `PriceSlippageTooHigh`. -/
theorem C9_slippage_guard_witness :
    settle_dark_pool_trade trade9w emptyPosition emptyPosition 0 0 400 100
        (fun n => n) 5 6 7 0
      = SettleResult.err PerpetualsError.PriceSlippageTooHigh :=
  (C9_slippage_guard trade9w emptyPosition emptyPosition 0 0 400 100
      (fun n => n) 5 6 7 0 (by decide) (by decide)).1
    (by decide) (by decide) (by decide) (by decide) (by decide)

/-- C9 counterexample: with oracle price 100 and trade price `100 + 2^60`,
the exact deviation `⌊|oracle − price| * 10000 / oracle⌋` is astronomically
larger than the bound 0, yet settlement accepts the trade and creates both
positions at that price: `price_diff * 10000` wraps to 0 in `u64`, so the
computed slippage is 0. -/
theorem C9_counterexample :
    0 < price_diff 100 trade9.price * 10000 / 100 ∧
      settle_dark_pool_trade trade9 emptyPosition emptyPosition 0 0 0 100
          (fun n => n) 5 6 7 1600000000
        = SettleResult.ok position9a position9b := by
  decide

/-- C1 (amended): batch settlement is NOT failure-isolated — a Guard failure
on any trade makes the whole instruction return that error: trades after the
failing one are never processed, and because the instruction fails, the
events of the trades before it are rolled back with the transaction, so none
of the sibling trades is settled or reported. -/
theorem C1_batch_aborts_on_guard_failure (front back : List DarkPoolTradeData)
    (bad : DarkPoolTradeData) (current_time : Int) (e : PerpetualsError)
    (hfront : ∀ t ∈ front, verify_darkpool_signature t current_time = Except.ok ())
    (hbad : verify_darkpool_signature bad current_time = Except.error e) :
    batch_settle_dark_pool_trades (front ++ bad :: back) current_time =
      Except.error e := by
  induction front with
  | nil => simp [batch_settle_dark_pool_trades, hbad]
  | cons t rest ih =>
    have ht : verify_darkpool_signature t current_time = Except.ok () :=
      hfront t (by simp)
    have ih2 := ih (fun u hu => hfront u (by simp [hu]))
    simp [batch_settle_dark_pool_trades, ht, ih2]

/-- C1 witness: a batch holding one admissible trade followed by one
zero-signature trade fails whole with `InvalidSignature`. -/
theorem C1_batch_aborts_witness :
    batch_settle_dark_pool_trades ([tradeGood] ++ tradeBad :: []) 1600000000 =
      Except.error PerpetualsError.InvalidSignature :=
  C1_batch_aborts_on_guard_failure [tradeGood] [] tradeBad 1600000000
    PerpetualsError.InvalidSignature (by decide) (by decide)

/-- C1 counterexample: in the batch `[tradeBad, tradeGood]` the second trade
passes every Guard check, yet the batch instruction returns
`InvalidSignature` from the first trade: the valid sibling is neither
processed nor reported, contrary to the claimed per-trade isolation. -/
theorem C1_counterexample :
    verify_darkpool_signature tradeGood 1600000000 = Except.ok () ∧
      batch_settle_dark_pool_trades [tradeBad, tradeGood] 1600000000 =
        Except.error PerpetualsError.InvalidSignature := by
  decide
